import Mathlib

/-!
Verification of the ListingMagic python backend core: the dual-provider
generation orchestrator with infrastructure-vs-content error classification
(`services/ai_generation_service.py`), the Fair Housing compliance checker
(`compliance/fair_housing.py`), and the refinement gate endpoint
(`endpoints/refine_content.py`).

The embedding is shallow: provider network calls are modelled by their
outcomes (an `Except` value giving either the raw response or the raised
exception), python exceptions by an inductive type whose variants mirror the
exception classes the code dispatches on, and stateful wall-clock reads by
explicit numeric parameters.  Counting of provider invocations is made
explicit in a trace structure so that the call-count assertions of the spec
can be stated.
-/

set_option maxRecDepth 10000

/-- Python exception model: one variant per exception class that
`ai_generation_service.py` dispatches on (`isinstance` checks), plus the two
custom exception classes it defines, plus a catch-all for any other
exception.  Each variant carries `str(e)`, the exception message. -/
inductive PyError where
  /-- `openai.APIConnectionError` -/
  | apiConnectionError (msg : String)
  /-- `openai.APITimeoutError` -/
  | apiTimeoutError (msg : String)
  /-- `openai.RateLimitError` -/
  | rateLimitError (msg : String)
  /-- `openai.APIError`; `statusCode = none` models a missing `status_code`
  attribute (the code guards every read with `hasattr`). -/
  | apiError (statusCode : Option Nat) (msg : String)
  /-- `google.api_core.exceptions.ResourceExhausted` -/
  | resourceExhausted (msg : String)
  /-- `google.api_core.exceptions.ServiceUnavailable` -/
  | serviceUnavailable (msg : String)
  /-- `google.api_core.exceptions.DeadlineExceeded` -/
  | deadlineExceeded (msg : String)
  /-- builtin `ConnectionError` -/
  | connectionError (msg : String)
  /-- builtin `TimeoutError` -/
  | timeoutError (msg : String)
  /-- `httpx.ConnectError` -/
  | httpxConnectError (msg : String)
  /-- `httpx.TimeoutException` -/
  | httpxTimeoutException (msg : String)
  /-- the service's own `InfrastructureError` class -/
  | infrastructureError (msg : String)
  /-- the service's own `ContentError` class -/
  | contentError (msg : String)
  /-- any other `Exception` -/
  | otherError (msg : String)
deriving Repr, DecidableEq

/-- `str(e)`: the message carried by the exception. -/
def PyError.msg : PyError → String
  | .apiConnectionError m => m
  | .apiTimeoutError m => m
  | .rateLimitError m => m
  | .apiError _ m => m
  | .resourceExhausted m => m
  | .serviceUnavailable m => m
  | .deadlineExceeded m => m
  | .connectionError m => m
  | .timeoutError m => m
  | .httpxConnectError m => m
  | .httpxTimeoutException m => m
  | .infrastructureError m => m
  | .contentError m => m
  | .otherError m => m

/-- `is_infrastructure_error` from `services/ai_generation_service.py`
(lines 101-146), translated clause by clause.  The python code tests
`isinstance` against disjoint exception hierarchies, so the order of the
clauses is immaterial in the variant model. -/
def is_infrastructure_error : PyError → Bool
  | .apiConnectionError _ => true
  | .apiTimeoutError _ => true
  | .rateLimitError _ => true
  | .apiError (some sc) _ => sc ≥ 500 || sc == 429
  | .apiError none _ => false
  | .resourceExhausted _ => true
  | .serviceUnavailable _ => true
  | .deadlineExceeded _ => true
  | .connectionError _ => true
  | .timeoutError _ => true
  | .httpxConnectError _ => true
  | .httpxTimeoutException _ => true
  | .infrastructureError _ => false
  | .contentError _ => false
  | .otherError _ => false

/-- The spec's decision table (section 4.2): connection failures, timeouts,
HTTP 429, HTTP status 500 and above, and provider resource-exhaustion,
service-unavailable and deadline-exceeded signals are infrastructure; every
other observed error is content.  Stated from the spec's words, to be
compared with `is_infrastructure_error`. -/
def spec_is_infrastructure : PyError → Bool
  | .apiConnectionError _ => true
  | .connectionError _ => true
  | .httpxConnectError _ => true
  | .apiTimeoutError _ => true
  | .timeoutError _ => true
  | .httpxTimeoutException _ => true
  | .rateLimitError _ => true
  | .apiError (some sc) _ => decide (sc = 429) || decide (500 ≤ sc)
  | .resourceExhausted _ => true
  | .serviceUnavailable _ => true
  | .deadlineExceeded _ => true
  | _ => false

-- ===========================================================================
-- Python string primitives used by the code under verification
-- ===========================================================================

/-- The characters python's `str.strip()` removes (the ASCII whitespace set;
`str.isspace` also covers rare non-ASCII space code points, which none of
the verified code paths introduce). -/
def pyIsSpace (c : Char) : Bool :=
  c = ' ' || c = '\t' || c = '\n' || c = '\r' ||
  c = Char.ofNat 11 || c = Char.ofNat 12

/-- `str.strip()` on a list of characters: drop whitespace from both ends. -/
def stripList (cs : List Char) : List Char :=
  ((cs.dropWhile pyIsSpace).reverse.dropWhile pyIsSpace).reverse

/-- `str.strip()`. -/
def pyStrip (s : String) : String :=
  String.mk (stripList s.toList)

/-- Python's `str.lower()` on one character (ASCII case mapping; the
taxonomy patterns and all phrases of interest are ASCII). -/
def pyLowerChar (c : Char) : Char :=
  if 65 ≤ c.toNat ∧ c.toNat ≤ 90 then Char.ofNat (c.toNat + 32) else c

/-- `str.lower()`. -/
def pyLower (s : String) : String :=
  String.mk (s.toList.map pyLowerChar)

/-- Substring test on character lists, python's `needle in hay`. -/
def containsSub (needle : List Char) : List Char → Bool
  | [] => needle.isEmpty
  | c :: cs => needle.isPrefixOf (c :: cs) || containsSub needle cs

/-- Substring test on strings. -/
def containsSubStr (needle hay : String) : Bool :=
  containsSub needle.toList hay.toList

-- ===========================================================================
-- `clean_json_response` (lines 149-159 of the service)
-- ===========================================================================

/-- The backtick character. -/
def btick : Char := Char.ofNat 96

/-- The three-backtick markdown fence delimiter. -/
def fenceChars : List Char := [btick, btick, btick]

/-- `clean_json_response` on a character list, translated statement by
statement: strip; if the text starts with the fence delimiter, cut through
the first newline when one exists (`str.find` then slice), cut a trailing
fence delimiter when present, and strip again. -/
def clean_json_list (cs : List Char) : List Char :=
  let text := stripList cs
  if fenceChars.isPrefixOf text then
    let t1 := if text.contains '\n' then
        (text.dropWhile (fun c => !(c = '\n'))).drop 1
      else text
    let t2 := if fenceChars.reverse.isPrefixOf t1.reverse then
        t1.take (t1.length - 3)
      else t1
    stripList t2
  else text

/-- `clean_json_response` (lines 149-159). -/
def clean_json_response (response_text : String) : String :=
  String.mk (clean_json_list response_text.toList)

-- Model configuration constants (lines 54-57 of the service).

def OPENAI_MODEL : String := "gpt-5.2"

def GEMINI_MODEL : String := "gemini-2.0-flash"

/-- `GenerationResult` dataclass (lines 67-78). -/
structure GenerationResult where
  success : Bool
  content : String
  provider_used : String
  model_used : String
  generation_time_ms : Nat
  input_tokens : Option Nat := none
  output_tokens : Option Nat := none
  is_fallback : Bool := false
  error : Option String := none
deriving Repr, DecidableEq

/-- The outcome of one raw provider SDK call: the returned
(text, input tokens, output tokens) triple, or the exception it raised. -/
def RawOutcome : Type := Except PyError (String × Nat × Nat)

/-- `_generate_with_openai` (lines 197-306), as a transformer from the raw
SDK call outcome to the outcome of the wrapper: a missing key raises
`InfrastructureError`; connection, timeout and rate-limit SDK errors are
re-raised as `InfrastructureError`; `APIError` with status 500+ or 429
likewise; every other `APIError` is re-raised unchanged (content error);
every other exception propagates uncaught.  On success the response text is
stripped. -/
def openaiWrap (keyConfigured : Bool) (raw : RawOutcome) :
    Except PyError (String × Nat × Nat) :=
  if !keyConfigured then
    .error (.infrastructureError "OpenAI API key not configured")
  else
    match raw with
    | .ok (t, itok, otok) => .ok (pyStrip t, itok, otok)
    | .error e =>
      match e with
      | .apiConnectionError m =>
          .error (.infrastructureError ("OpenAI unavailable: " ++ m))
      | .apiTimeoutError m =>
          .error (.infrastructureError ("OpenAI unavailable: " ++ m))
      | .rateLimitError m =>
          .error (.infrastructureError ("OpenAI unavailable: " ++ m))
      | .apiError (some sc) m =>
          if sc ≥ 500 || sc == 429 then
            .error (.infrastructureError ("OpenAI server error: " ++ m))
          else .error (.apiError (some sc) m)
      | e => .error e

/-- `_generate_with_gemini` (lines 313-378): a missing key (neither gemini
nor openai key set) raises `InfrastructureError`; `ResourceExhausted`,
`ServiceUnavailable` and `DeadlineExceeded` are re-raised as
`InfrastructureError`; every other exception propagates uncaught.  On
success the response text is stripped.  Per-image download failures are
skipped inside the call and do not change the outcome shape, so they are
absorbed into the raw outcome. -/
def geminiWrap (geminiKey openaiKey : Bool) (raw : RawOutcome) :
    Except PyError (String × Nat × Nat) :=
  if !(geminiKey || openaiKey) then
    .error (.infrastructureError "Gemini API key not configured")
  else
    match raw with
    | .ok (t, itok, otok) => .ok (pyStrip t, itok, otok)
    | .error e =>
      match e with
      | .resourceExhausted m =>
          .error (.infrastructureError ("Gemini unavailable: " ++ m))
      | .serviceUnavailable m =>
          .error (.infrastructureError ("Gemini unavailable: " ++ m))
      | .deadlineExceeded m =>
          .error (.infrastructureError ("Gemini unavailable: " ++ m))
      | e => .error e

/-- The dispatch condition of `generate_content_with_fallback` on a primary
exception `e`: the first handler catches the `InfrastructureError` class,
the second catches everything else and falls back exactly when
`is_infrastructure_error e` holds (otherwise it re-raises). -/
def fallsBack (e : PyError) : Bool :=
  match e with
  | .infrastructureError _ => true
  | _ => is_infrastructure_error e

deriving instance DecidableEq for Except

/-- Result of one orchestrator run together with how many times each
provider attempt was entered. -/
structure FallbackTrace where
  result : Except PyError GenerationResult
  primary_calls : Nat
  secondary_calls : Nat
deriving Repr, DecidableEq

/-- `generate_content_with_fallback` (lines 385-524) as a function of the
two provider-attempt outcomes (`prim` is what `_generate_with_openai`
produced, `sec` what `_generate_with_gemini` would produce when reached) and
of the elapsed milliseconds read at each of the three return points
(`e1` primary success, `e2` fallback success, `e3` both-failed). -/
def generate_content_with_fallback
    (prim sec : Except PyError (String × Nat × Nat))
    (e1 e2 e3 : Nat) : FallbackTrace :=
  match prim with
  | .ok (content, itok, otok) =>
      { result := .ok
          { success := true
            content := content
            provider_used := "openai"
            model_used := OPENAI_MODEL
            generation_time_ms := e1
            input_tokens := some itok
            output_tokens := some otok
            is_fallback := false
            error := none }
        primary_calls := 1
        secondary_calls := 0 }
  | .error e =>
      if fallsBack e then
        -- openai_error := str(e); fall through to the gemini attempt
        match sec with
        | .ok (content, itok, otok) =>
            { result := .ok
                { success := true
                  content := content
                  provider_used := "gemini"
                  model_used := GEMINI_MODEL
                  generation_time_ms := e2
                  input_tokens := some itok
                  output_tokens := some otok
                  is_fallback := true
                  error := none }
              primary_calls := 1
              secondary_calls := 1 }
        | .error e2err =>
            { result := .ok
                { success := false
                  content := ""
                  provider_used := "none"
                  model_used := "none"
                  generation_time_ms := e3
                  input_tokens := none
                  output_tokens := none
                  is_fallback := true
                  error := some ("All providers failed. OpenAI: " ++ e.msg
                    ++ ". Gemini: " ++ e2err.msg) }
              primary_calls := 1
              secondary_calls := 1 }
      else
        -- content error: re-raised to the caller unchanged
        { result := .error e, primary_calls := 1, secondary_calls := 0 }

/-- The orchestrator composed with both provider wrappers: the primary
attempt is `_generate_with_openai` applied to the raw OpenAI SDK outcome,
the secondary attempt is `_generate_with_gemini` applied to the raw Gemini
SDK outcome. -/
def generate_full (openaiKey geminiKey : Bool) (rawO rawG : RawOutcome)
    (e1 e2 e3 : Nat) : FallbackTrace :=
  generate_content_with_fallback
    (openaiWrap openaiKey rawO) (geminiWrap geminiKey openaiKey rawG) e1 e2 e3

-- ===========================================================================
-- Fair Housing compliance checker (`compliance/fair_housing.py`)
-- ===========================================================================

/-- Character classes occurring in the taxonomy's regular expressions. -/
inductive CharClass where
  /-- one literal character -/
  | litc (c : Char)
  /-- `\s` -/
  | space
  /-- `\w` -/
  | word
  /-- `\d` -/
  | digit
  /-- the class `[\s-]` -/
  | spaceOrDash
deriving Repr, DecidableEq

/-- `\w`: letters, digits, underscore (ASCII, matching the lowered text the
checker operates on). -/
def isWordChar (c : Char) : Bool :=
  c.isAlpha || c.isDigit || c = '_'

/-- Membership in a character class. -/
def CharClass.mem : CharClass → Char → Bool
  | .litc a, c => c = a
  | .space, c => pyIsSpace c
  | .word, c => isWordChar c
  | .digit, c => c.isDigit
  | .spaceOrDash, c => pyIsSpace c || c = '-'

/-- Regular-expression abstract syntax sufficient for the taxonomy: every
pattern in `PROHIBITED_PATTERNS` has the overall shape `\b( body )\b` whose
body is built from literals, alternation, optional parts, and greedy
quantifiers applied to character classes only. -/
inductive RE where
  /-- the empty expression -/
  | eps
  /-- one character of a class -/
  | cls (cc : CharClass)
  /-- concatenation -/
  | seq (a b : RE)
  /-- alternation, left branch preferred (backtracking order) -/
  | alt (a b : RE)
  /-- `a?`, greedy -/
  | opt (a : RE)
  /-- `cc+`, greedy -/
  | many1 (cc : CharClass)
  /-- `cc*`, greedy -/
  | many0 (cc : CharClass)
deriving Repr, DecidableEq

/-- Whether position `i` of `cs` holds a word character (`false` past the
ends, as for python's `\b` semantics). -/
def wordAt (cs : List Char) (i : Nat) : Bool :=
  match cs.get? i with
  | some c => isWordChar c
  | none => false

/-- `\b`: a word boundary at position `i`. -/
def wordBoundary (cs : List Char) (i : Nat) : Bool :=
  if i = 0 then wordAt cs 0
  else wordAt cs (i - 1) != wordAt cs i

/-- Length of the maximal run of characters of class `cc` starting at
position `i` (what a greedy quantifier consumes first). -/
def greedyRun (cs : List Char) (cc : CharClass) (i : Nat) : Nat :=
  ((cs.drop i).takeWhile (fun c => cc.mem c)).length

/-- All end positions reachable by matching `re` starting at position `i`,
in backtracking priority order (first element is what python's engine
commits to first): greedy quantifiers yield longest first, alternation
yields the left branch first, `opt` yields the with-part first. -/
def reEnds (cs : List Char) : RE → Nat → List Nat
  | .eps, i => [i]
  | .cls cc, i =>
      match cs.get? i with
      | some c => if cc.mem c then [i + 1] else []
      | none => []
  | .seq a b, i => (reEnds cs a i).flatMap (fun j => reEnds cs b j)
  | .alt a b, i => reEnds cs a i ++ reEnds cs b i
  | .opt a, i => reEnds cs a i ++ [i]
  | .many1 cc, i =>
      let r := greedyRun cs cc i
      (List.range r).map (fun k => i + r - k)
  | .many0 cc, i =>
      let r := greedyRun cs cc i
      (List.range (r + 1)).map (fun k => i + r - k)

/-- Match the taxonomy pattern `\b( body )\b` at position `i`: a word
boundary at `i`, then the first end position `j` of `body` (in backtracking
order) at which a word boundary also holds.  Returns the end position of the
match.  Since the single capturing group wraps the whole body, the group-1
text `re.findall` reports is exactly the matched substring. -/
def matchAt (cs : List Char) (body : RE) (i : Nat) : Option Nat :=
  if wordBoundary cs i then
    ((reEnds cs body i).filter (fun j => wordBoundary cs j)).head?
  else none

/-- Scanning loop of `re.findall`: try each position left to right, emit
non-overlapping matches, resume after each match.  `fuel` bounds the number
of scan steps; positions advance strictly, so `cs.length + 1` steps always
suffice. -/
def findallAux (cs : List Char) (body : RE) : Nat → Nat → List String
  | 0, _ => []
  | fuel + 1, i =>
    if i ≤ cs.length then
      match matchAt cs body i with
      | some j =>
          String.mk ((cs.drop i).take (j - i)) ::
            findallAux cs body fuel (if i < j then j else i + 1)
      | none => findallAux cs body fuel (i + 1)
    else []

/-- `re.findall(pattern, text)` for a taxonomy pattern with body `body`:
the list of group-1 match strings in match order. -/
def re_findall (body : RE) (text : String) : List String :=
  findallAux text.toList body (text.toList.length + 1) 0

-- Pattern-building helpers (abbreviations for the AST encodings).

/-- A single literal character. -/
def chr (c : Char) : RE := .cls (.litc c)

/-- A literal word: the concatenation of its characters. -/
def litRE (s : String) : RE :=
  s.toList.foldr (fun c r => RE.seq (chr c) r) .eps

/-- `\s+` -/
def wsp : RE := .many1 .space

/-- Concatenation of a list of expressions. -/
def cat (l : List RE) : RE := l.foldr RE.seq .eps

/-- Alternation of a list of expressions, first preferred. -/
def altn : List RE → RE
  | [] => .eps
  | [x] => x
  | x :: xs => .alt x (altn xs)

/-- The apostrophe character (in `gentleman('s)?`). -/
def apos : Char := Char.ofNat 39

/-- `(community|neighborhood|area)` -/
def cnaRE : RE := altn [litRE "community", litRE "neighborhood", litRE "area"]

/-- `(church(es)?|synagogue|temple|mosque)` -/
def worshipRE : RE :=
  altn [cat [litRE "church", .opt (litRE "es")],
        litRE "synagogue", litRE "temple", litRE "mosque"]

/-- `ComplianceViolation` dataclass of `compliance/fair_housing.py`. -/
structure ComplianceViolation where
  category : String
  «matches» : List String
  severity : String
  suggestion : String
deriving Repr, DecidableEq

/-- `ComplianceResult` dataclass of `compliance/fair_housing.py`. -/
structure ComplianceResult where
  is_compliant : Bool
  violations : List ComplianceViolation
  message : String
deriving Repr, DecidableEq

/-- One category entry of `PROHIBITED_PATTERNS`: its pattern bodies (each
pattern in the source is `\b( body )\b`), severity, and suggestion. -/
structure CategoryConfig where
  patterns : List RE
  severity : String
  suggestion : String

/-- The `PROHIBITED_PATTERNS` table (lines 40-150 of
`compliance/fair_housing.py`), in source (dict insertion) order, each regex
encoded as its group body. -/
def PROHIBITED_PATTERNS : List (String × CategoryConfig) := [
  ("familial_status",
   { patterns := [
       cat [litRE "adult", .opt (chr 's'), wsp, litRE "only"],
       cat [litRE "no", wsp, litRE "children"],
       cat [litRE "no", wsp, litRE "kids"],
       cat [litRE "perfect", wsp, litRE "for", wsp, litRE "couple", .opt (chr 's')],
       cat [litRE "ideal", wsp, litRE "for", wsp, litRE "couple", .opt (chr 's')],
       cat [litRE "great", wsp, litRE "for", wsp, litRE "couple", .opt (chr 's')],
       cat [litRE "mature", wsp,
            altn [litRE "individual", litRE "person", litRE "couple", litRE "adult"],
            .opt (chr 's')],
       cat [litRE "empty", wsp, litRE "nester", .opt (chr 's')],
       cat [litRE "single", .opt (chr 's'), wsp, litRE "only"],
       cat [litRE "adult", wsp,
            altn [litRE "community", litRE "living", litRE "building", litRE "complex"]],
       cat [litRE "great", wsp, litRE "for", wsp, litRE "famil", altn [litRE "y", litRE "ies"]],
       cat [litRE "perfect", wsp, litRE "for", wsp, litRE "famil", altn [litRE "y", litRE "ies"]],
       cat [litRE "ideal", wsp, litRE "for", wsp, litRE "famil", altn [litRE "y", litRE "ies"]],
       cat [litRE "growing", wsp, litRE "famil", altn [litRE "y", litRE "ies"]],
       cat [litRE "young", wsp, litRE "famil", altn [litRE "y", litRE "ies"]],
       cat [litRE "married", wsp, litRE "couple", .opt (chr 's')],
       cat [litRE "newlywed", .opt (chr 's')]]
     severity := "high"
     suggestion := "Describe the property features instead (e.g., '4 bedrooms' rather than 'perfect for families')" }),
  ("religion",
   { patterns := [
       cat [litRE "near", wsp, worshipRE],
       cat [litRE "close", wsp, litRE "to", wsp, worshipRE],
       cat [litRE "walking", wsp, litRE "distance", wsp, litRE "to", wsp,
            altn [litRE "church", litRE "synagogue", litRE "temple", litRE "mosque"]],
       cat [litRE "christian", wsp, cnaRE],
       cat [litRE "jewish", wsp, cnaRE],
       cat [litRE "catholic", wsp, cnaRE],
       cat [litRE "muslim", wsp, cnaRE],
       cat [litRE "religious", wsp, altn [litRE "community", litRE "neighborhood"]]]
     severity := "high"
     suggestion := "Remove religious references. Focus on nearby amenities like parks, shops, transit." }),
  ("race_ethnicity",
   { patterns := [
       cat [litRE "white", wsp, cnaRE],
       cat [litRE "black", wsp, cnaRE],
       cat [litRE "asian", wsp, cnaRE],
       cat [litRE "hispanic", wsp, cnaRE],
       cat [litRE "latino", wsp, cnaRE],
       litRE "caucasian",
       cat [litRE "african", .cls .spaceOrDash, litRE "american", wsp, cnaRE],
       cat [litRE "integrated", wsp, cnaRE],
       cat [litRE "diverse", wsp, cnaRE],
       cat [litRE "ethnic", wsp,
            altn [litRE "community", litRE "neighborhood", litRE "area", litRE "enclave"]],
       cat [litRE "exclusively", wsp, .many1 .word, wsp, litRE "neighborhood"]]
     severity := "high"
     suggestion := "Remove all racial/ethnic references. Describe property features and amenities only." }),
  ("disability",
   { patterns := [
       cat [litRE "no", wsp, litRE "wheelchair", .opt (chr 's')],
       cat [litRE "able", .cls .spaceOrDash, litRE "bodied"],
       cat [litRE "healthy", wsp, litRE "only"],
       cat [litRE "no", wsp, litRE "disabled"],
       cat [litRE "not", wsp, litRE "suitable", wsp, litRE "for", wsp, litRE "disabled"],
       cat [litRE "not", wsp, litRE "handicap", .opt (litRE "ped"), wsp, litRE "accessible"],
       cat [litRE "physically", wsp, litRE "fit"],
       cat [litRE "mentally", wsp, litRE "stable"]]
     severity := "high"
     suggestion := "Remove disability references. You may describe accessibility features positively (e.g., 'wheelchair ramp', 'elevator access')." }),
  ("gender",
   { patterns := [
       cat [litRE "male", wsp, litRE "only"],
       cat [litRE "female", wsp, litRE "only"],
       cat [litRE "male", .opt (chr 's'), wsp, litRE "preferred"],
       cat [litRE "female", .opt (chr 's'), wsp, litRE "preferred"],
       cat [litRE "bachelor", wsp, altn [litRE "pad", litRE "apartment", litRE "living"]],
       cat [litRE "gentleman", .opt (cat [chr apos, chr 's']), wsp,
            altn [litRE "apartment", litRE "residence", litRE "quarters"]],
       cat [litRE "lad", altn [litRE "y", litRE "ies"], wsp, litRE "only"],
       cat [litRE "women", wsp, litRE "only"],
       cat [litRE "men", wsp, litRE "only"]]
     severity := "high"
     suggestion := "Remove gender preferences. Housing must be available equally to all." }),
  ("age",
   { patterns := [
       cat [litRE "senior", .opt (litRE "s"), wsp,
            altn [litRE "only", litRE "preferred", litRE "community", litRE "living"]],
       cat [litRE "older", wsp, litRE "person", .opt (chr 's'), wsp,
            altn [litRE "only", litRE "preferred"]],
       cat [litRE "retiree", .opt (chr 's'), wsp,
            altn [litRE "only", litRE "preferred", litRE "community"]],
       cat [litRE "golden", wsp, litRE "age"],
       cat [litRE "young", wsp, litRE "professional", .opt (chr 's'), wsp, litRE "only"],
       cat [litRE "millennial", .opt (chr 's'), wsp, litRE "only"],
       cat [litRE "no", wsp, litRE "senior", .opt (chr 's')],
       cat [litRE "age", wsp, .many1 .digit, .many0 .space, .opt (chr '+'), wsp, litRE "only"]]
     severity := "high"
     suggestion := "Remove age references unless this is a verified 55+ community with legal exemption." }),
  ("national_origin",
   { patterns := [
       cat [litRE "american", wsp, litRE "only"],
       cat [litRE "citizen", .opt (chr 's'), wsp, litRE "only"],
       cat [litRE "no", wsp, litRE "immigrant", .opt (chr 's')],
       cat [litRE "english", wsp, litRE "speaker", .opt (chr 's'), wsp, litRE "only"],
       cat [litRE "must", wsp, litRE "speak", wsp, litRE "english"],
       cat [litRE "foreigner", .opt (chr 's'), wsp,
            altn [cat [litRE "not", wsp, litRE "allowed"], litRE "prohibited"]]]
     severity := "high"
     suggestion := "Remove national origin references. Housing must be available to all regardless of origin." })]

/-- `list(dict.fromkeys(l))`: deduplicate preserving first occurrence. -/
def dedupFirst (l : List String) : List String :=
  l.foldl (fun acc x => if acc.contains x then acc else acc ++ [x]) []

/-- Python `str.title()` restricted to its ASCII behavior: the first letter
of each letter run is uppercased, the rest lowercased. -/
def pyTitleAux : Bool → List Char → List Char
  | _, [] => []
  | prevAlpha, c :: cs =>
    if c.isAlpha then
      (if prevAlpha then c.toLower else c.toUpper) :: pyTitleAux true cs
    else c :: pyTitleAux false cs

/-- `str.title()`. -/
def pyTitle (s : String) : String := String.mk (pyTitleAux false s.toList)

/-- `v.category.replace("_", " ").title()` of the message builder. -/
def categoryDisplay (cat : String) : String :=
  pyTitle (String.mk (cat.toList.map (fun c => if c = '_' then ' ' else c)))

/-- The per-category match collection of `check_fair_housing_compliance`:
for each pattern in order, all its matches in order (the code flattens each
match to its group-1 string, which our `re_findall` already returns). -/
def categoryMatches (cfg : CategoryConfig) (lower : String) : List String :=
  cfg.patterns.foldl (fun acc p => acc ++ re_findall p lower) []

/-- The violation list `check_fair_housing_compliance` builds over the
lowered text: one `ComplianceViolation` per category with a non-empty match
list, in table order, with matches deduplicated first-seen. -/
def collectViolations (lower : String) : List ComplianceViolation :=
  PROHIBITED_PATTERNS.filterMap (fun pc =>
    let ms := categoryMatches pc.2 lower
    if ms.isEmpty then none
    else some { category := pc.1
                «matches» := dedupFirst ms
                severity := pc.2.severity
                suggestion := pc.2.suggestion })

/-- `check_fair_housing_compliance` (lines 153-206).  The input is an
`Option String` because the spec admits a python `None` argument; `not text`
is true exactly for `None` and the empty string. -/
def check_fair_housing_compliance (text : Option String) : ComplianceResult :=
  match text with
  | none =>
      { is_compliant := true, violations := [], message := "No content to check" }
  | some s =>
    if s.isEmpty then
      { is_compliant := true, violations := [], message := "No content to check" }
    else
      let violations := collectViolations (pyLower s)
      let message :=
        if violations.isEmpty then "Content is Fair Housing compliant"
        else "Fair Housing violations detected in: "
          ++ String.intercalate ", " (violations.map (fun v => categoryDisplay v.category))
          ++ ". Please revise content to describe the property, not potential residents."
      { is_compliant := violations.isEmpty
        violations := violations
        message := message }

-- ===========================================================================
-- Refinement gate (`endpoints/refine_content.py`)
-- ===========================================================================

/-- `ConversationMessage` request model. -/
structure ConversationMessage where
  role : String
  content : String
deriving Repr, DecidableEq

/-- `RefineContentRequest` request model.  `property_data` is an opaque
JSON-ish payload read only by the prompt builder, whose output feeds the
provider call that the embedding models by its outcome, so its content is
irrelevant here and kept abstract as presence/absence. -/
structure RefineContentRequest where
  content_type : String
  current_content : String
  user_instruction : String
  conversation_history : List ConversationMessage := []
  has_property_data : Bool := false
deriving Repr, DecidableEq

/-- `ComplianceViolationResponse` response model. -/
structure ComplianceViolationResponse where
  category : String
  «matches» : List String
  severity : String
  suggestion : String
deriving Repr, DecidableEq

/-- `RefineContentResponse` response model (`processing_time_ms` is wall
clock, modelled as a parameter value). -/
structure RefineContentResponse where
  success : Bool
  refined_content : Option String := none
  error : Option String := none
  error_type : Option String := none
  violations : Option (List ComplianceViolationResponse) := none
  message : Option String := none
  processing_time_ms : Nat := 0
deriving Repr, DecidableEq

/-- What the endpoint does: return a response body, or raise an
`HTTPException` with a status code and detail string. -/
inductive RefineOutcome where
  | response (r : RefineContentResponse)
  | httpError (statusCode : Nat) (detail : String)
deriving Repr, DecidableEq

/-- Endpoint outcome together with the number of provider (Anthropic)
calls issued. -/
structure RefineTrace where
  outcome : RefineOutcome
  provider_calls : Nat
deriving Repr, DecidableEq

/-- The fixed refusal phrase list (lines 207-216). -/
def refusal_phrases : List String :=
  ["i can\x27t", "i cannot", "i\x27m not able to", "i am not able to",
   "violates fair housing", "fair housing violation", "discriminatory",
   "protected class"]

/-- The valid content types (line 135). -/
def valid_types : List String := ["remarks", "features", "script"]

/-- Conversion from a checker violation to the response model (lines
150-156). -/
def toViolationResponse (v : ComplianceViolation) : ComplianceViolationResponse :=
  { category := v.category
    «matches» := v.«matches»
    severity := v.severity
    suggestion := v.suggestion }

/-- `refine_content` (lines 125-271), with the Anthropic call modelled by
its outcome `providerRaw` (the returned message text, or the exception it
raised — `PyError.apiError` standing for `anthropic.APIError`, any other
variant for any other exception) and the four wall-clock reads by
`t1`-`t4`.  Control flow in source order: content-type validation,
compliance check of the instruction alone (terminal, provider never
invoked), key check, provider call, refusal-phrase scan, compliance check
of the output, success. -/
def refine_content (req : RefineContentRequest) (anthropicKey : Bool)
    (providerRaw : Except PyError String) (t1 t2 t3 t4 : Nat) : RefineTrace :=
  if !valid_types.contains req.content_type then
    { outcome := .httpError 400
        "Invalid content_type. Must be one of: [\x27remarks\x27, \x27features\x27, \x27script\x27]"
      provider_calls := 0 }
  else
    let instruction_check := check_fair_housing_compliance (some req.user_instruction)
    if !instruction_check.is_compliant then
      { outcome := .response
          { success := false
            error := some "compliance_violation"
            error_type := some "instruction_violation"
            violations := some (instruction_check.violations.map toViolationResponse)
            message := some "Your refinement request contains language that may violate Fair Housing laws. Please rephrase without references to protected classes."
            processing_time_ms := t1 }
        provider_calls := 0 }
    else if !anthropicKey then
      { outcome := .httpError 503 "Anthropic API key not configured"
        provider_calls := 0 }
    else
      match providerRaw with
      | .error e =>
        match e with
        | .apiError _ m =>
            { outcome := .httpError 503 ("AI service error: " ++ m)
              provider_calls := 1 }
        | e =>
            { outcome := .httpError 500 ("Content refinement failed: " ++ e.msg)
              provider_calls := 1 }
      | .ok raw =>
        let refined_content := pyStrip raw
        if refusal_phrases.any (fun p => containsSubStr p (pyLower refined_content)) then
          { outcome := .response
              { success := false
                error := some "compliance_violation"
                error_type := some "ai_refusal"
                message := some refined_content
                processing_time_ms := t2 }
            provider_calls := 1 }
        else
          let compliance_check := check_fair_housing_compliance (some refined_content)
          if !compliance_check.is_compliant then
            { outcome := .response
                { success := false
                  error := some "compliance_violation"
                  error_type := some "output_violation"
                  violations := some (compliance_check.violations.map toViolationResponse)
                  message := some "The refined content contains Fair Housing violations. Please try a different refinement approach."
                  processing_time_ms := t3 }
              provider_calls := 1 }
          else
            { outcome := .response
                { success := true
                  refined_content := some refined_content
                  message := some "Content refined successfully"
                  processing_time_ms := t4 }
              provider_calls := 1 }

-- ===========================================================================
-- Helper lemmas
-- ===========================================================================

theorem isPrefixOf_append_self (l t : List Char) : l.isPrefixOf (l ++ t) = true := by
  simp [List.isPrefixOf_iff_prefix]

theorem containsSub_nil_needle (hay : List Char) : containsSub [] hay = true := by
  cases hay <;> simp [containsSub, List.isPrefixOf]

theorem containsSub_self_append (needle post : List Char) :
    containsSub needle (needle ++ post) = true := by
  cases needle with
  | nil => exact containsSub_nil_needle _
  | cons n ns =>
    have h1 : (n :: ns).isPrefixOf ((n :: ns) ++ post) = true :=
      isPrefixOf_append_self _ _
    simp only [List.cons_append] at h1 ⊢
    simp [containsSub, h1]

theorem containsSub_append_mid (needle pre post : List Char) :
    containsSub needle (pre ++ needle ++ post) = true := by
  induction pre with
  | nil => simpa using containsSub_self_append needle post
  | cons c cs ih =>
    simp only [List.cons_append]
    simp only [List.append_assoc] at ih ⊢
    simp [containsSub, ih]

theorem containsSubStr_append_mid (needle pre post : String) :
    containsSubStr needle (pre ++ needle ++ post) = true := by
  unfold containsSubStr
  have h : (pre ++ needle ++ post).toList = pre.toList ++ needle.toList ++ post.toList := rfl
  rw [h]
  exact containsSub_append_mid needle.toList pre.toList post.toList

-- ===========================================================================
-- Claim theorems: orchestrator and error classifier
-- ===========================================================================

/-- C3: the error classifier returns infrastructure exactly for connection
failures, timeouts, HTTP 429 rate limits, HTTP status 500 and above, and
provider resource-exhaustion / service-unavailable / deadline-exceeded
signals; every other observed error — in particular provider API errors
with a 4xx status other than 429 — is classified as content.
`spec_is_infrastructure` is the spec's decision table stated verbatim;
`is_infrastructure_error` is the code's classifier. -/
theorem c3_classifier_matches_spec_table (e : PyError) :
    is_infrastructure_error e = spec_is_infrastructure e := by
  cases e with
  | apiError sc m =>
    cases sc with
    | none => rfl
    | some n =>
      show (decide (n ≥ 500) || (n == 429)) = (decide (n = 429) || decide (500 ≤ n))
      by_cases h1 : n = 429 <;> by_cases h2 : 500 ≤ n <;>
        simp [h1, h2, ge_iff_le]
  | _ => rfl

/-- C1: whenever the primary attempt raises an error the orchestrator
classifies as infrastructure (`fallsBack`: an `InfrastructureError`
instance, or any exception the classifier marks infrastructure) and the
secondary attempt succeeds, the orchestrator returns success with
`provider_used = "gemini"`, `is_fallback = true`, the secondary's content
and token counts, and each provider is invoked exactly once. -/
theorem c1_infra_fallback_success (e : PyError) (c : String) (itok otok : Nat)
    (prim sec : Except PyError (String × Nat × Nat)) (e1 e2 e3 : Nat)
    (hp : prim = .error e) (hd : fallsBack e = true)
    (hs : sec = .ok (c, itok, otok)) :
    generate_content_with_fallback prim sec e1 e2 e3 =
      { result := .ok
          { success := true
            content := c
            provider_used := "gemini"
            model_used := GEMINI_MODEL
            generation_time_ms := e2
            input_tokens := some itok
            output_tokens := some otok
            is_fallback := true
            error := none }
        primary_calls := 1
        secondary_calls := 1 } := by
  subst hp; subst hs
  simp [generate_content_with_fallback, hd]

theorem c1_infra_fallback_success_witness :
    generate_content_with_fallback (.error (.apiTimeoutError "request timed out"))
      (.ok ("A lovely residence.", 10, 20)) 5 6 7 =
      { result := .ok
          { success := true
            content := "A lovely residence."
            provider_used := "gemini"
            model_used := GEMINI_MODEL
            generation_time_ms := 6
            input_tokens := some 10
            output_tokens := some 20
            is_fallback := true
            error := none }
        primary_calls := 1
        secondary_calls := 1 } :=
  c1_infra_fallback_success _ _ _ _ _ _ _ _ _ rfl rfl rfl

/-- C2: whenever the raw primary provider call (with the OpenAI key
configured) raises an error that the classifier does not mark as
infrastructure — and which is a genuine provider error, not the wrapper's
own `InfrastructureError` signal — the orchestrator re-raises that very
error without ever entering the secondary attempt: the secondary call count
is zero and the original error object is preserved. -/
theorem c2_content_error_no_fallback (e : PyError) (gk : Bool)
    (rawG : RawOutcome) (e1 e2 e3 : Nat)
    (hni : is_infrastructure_error e = false)
    (hne : ∀ m, e ≠ .infrastructureError m) :
    generate_full true gk (.error e) rawG e1 e2 e3 =
      { result := .error e, primary_calls := 1, secondary_calls := 0 } := by
  have hwrap : openaiWrap true (.error e) = .error e := by
    cases e with
    | apiError sc m =>
      cases sc with
      | none => rfl
      | some n =>
        have : (decide (n ≥ 500) || (n == 429)) = false := hni
        simp [openaiWrap, this]
    | infrastructureError m => exact absurd rfl (hne m)
    | _ => first
      | rfl
      | exact absurd hni (by simp [is_infrastructure_error])
  have hfb : fallsBack e = false := by
    cases e with
    | infrastructureError m => exact absurd rfl (hne m)
    | _ => simpa [fallsBack] using hni
  unfold generate_full
  rw [hwrap]
  simp [generate_content_with_fallback, hfb]

theorem c2_content_error_no_fallback_witness :
    generate_full true true (.error (.apiError (some 400) "bad request")) (.ok ("unused", 0, 0)) 1 2 3 =
      { result := .error (.apiError (some 400) "bad request")
        primary_calls := 1
        secondary_calls := 0 } :=
  c2_content_error_no_fallback _ _ _ _ _ _ rfl (fun m h => by cases h)

/-- C4: whenever the primary attempt raises an error the orchestrator
classifies as infrastructure and the secondary attempt then also raises,
the orchestrator returns (never raises) a result with `success = false`,
`provider_used = "none"`, `is_fallback = true`, empty content, and an error
message containing both providers' underlying error messages. -/
theorem c4_both_fail (e eSec : PyError)
    (prim sec : Except PyError (String × Nat × Nat)) (e1 e2 e3 : Nat)
    (hp : prim = .error e) (hd : fallsBack e = true)
    (hs : sec = .error eSec) :
    generate_content_with_fallback prim sec e1 e2 e3 =
      { result := .ok
          { success := false
            content := ""
            provider_used := "none"
            model_used := "none"
            generation_time_ms := e3
            input_tokens := none
            output_tokens := none
            is_fallback := true
            error := some ("All providers failed. OpenAI: " ++ e.msg
              ++ ". Gemini: " ++ eSec.msg) }
        primary_calls := 1
        secondary_calls := 1 }
    ∧ containsSubStr e.msg
        ("All providers failed. OpenAI: " ++ e.msg ++ ". Gemini: " ++ eSec.msg) = true
    ∧ containsSubStr eSec.msg
        ("All providers failed. OpenAI: " ++ e.msg ++ ". Gemini: " ++ eSec.msg) = true := by
  subst hp; subst hs
  refine ⟨by simp [generate_content_with_fallback, hd], ?_, ?_⟩
  · rw [String.append_assoc]
    exact containsSubStr_append_mid e.msg "All providers failed. OpenAI: "
      (". Gemini: " ++ eSec.msg)
  · have h := containsSubStr_append_mid eSec.msg
      ("All providers failed. OpenAI: " ++ e.msg ++ ". Gemini: ") ""
    rwa [String.append_empty] at h

theorem c4_both_fail_witness :
    generate_content_with_fallback (.error (.rateLimitError "429 too many requests"))
      (.error (.serviceUnavailable "gemini down")) 1 2 3 =
      { result := .ok
          { success := false
            content := ""
            provider_used := "none"
            model_used := "none"
            generation_time_ms := 3
            input_tokens := none
            output_tokens := none
            is_fallback := true
            error := some "All providers failed. OpenAI: 429 too many requests. Gemini: gemini down" }
        primary_calls := 1
        secondary_calls := 1 } :=
  (c4_both_fail (.rateLimitError "429 too many requests") (.serviceUnavailable "gemini down")
    _ _ 1 2 3 rfl rfl rfl).1

/-- C5 counterexample: the claim says `generate_content_with_fallback` never
raises for provider or content failures.  At this concrete input — the
primary raises a 400 bad-request (a content failure) while the secondary
would succeed — the orchestrator re-raises the exception (the composed run
ends in an exceptional outcome, not a returned `GenerationResult`). -/
theorem c5_never_raises_counterexample :
    (generate_full true true (.error (.apiError (some 400) "bad request"))
      (.ok ("would succeed", 1, 1)) 3 4 5).result
      = .error (.apiError (some 400) "bad request") := rfl

/-- C5 amended: the orchestrator never raises once the primary outcome is
classified infrastructure (both fallback branches return a
`GenerationResult`), and the only exceptions it lets escape are
content-classified primary errors, re-raised unchanged: every exceptional
outcome equals the primary attempt's error and that error is one the
orchestrator classifies as content (not `fallsBack`). -/
theorem c5_raises_only_content_errors
    (prim sec : Except PyError (String × Nat × Nat)) (e1 e2 e3 : Nat)
    (e : PyError)
    (h : (generate_content_with_fallback prim sec e1 e2 e3).result = .error e) :
    prim = .error e ∧ fallsBack e = false := by
  match prim with
  | .ok (c, itok, otok) =>
    simp [generate_content_with_fallback] at h
  | .error eP =>
    by_cases hd : fallsBack eP
    · exfalso
      match sec with
      | .ok (c, itok, otok) => simp [generate_content_with_fallback, hd] at h
      | .error eS => simp [generate_content_with_fallback, hd] at h
    · have hres : (generate_content_with_fallback (.error eP) sec e1 e2 e3).result
          = .error eP := by
        simp [generate_content_with_fallback, hd]
      rw [hres] at h
      cases h
      exact ⟨rfl, by simpa using hd⟩

theorem c5_raises_only_content_errors_witness :
    ((.error (.contentError "invalid schema") : Except PyError (String × Nat × Nat))
        = .error (.contentError "invalid schema"))
    ∧ fallsBack (.contentError "invalid schema") = false :=
  c5_raises_only_content_errors (.error (.contentError "invalid schema"))
    (.ok ("unused", 0, 0)) 0 0 0 (.contentError "invalid schema") rfl

/-- C10: every `GenerationResult` the orchestrator returns satisfies the
invariant: on success the error field is empty and the provider/model pair
is openai/gpt-5.2 or gemini/gemini-2.0-flash; on failure the content is
empty, the provider is "none" and an error message is present; and
`is_fallback` is set exactly when the secondary attempt was entered. -/
theorem c10_result_invariant
    (prim sec : Except PyError (String × Nat × Nat)) (e1 e2 e3 : Nat)
    (r : GenerationResult)
    (h : (generate_content_with_fallback prim sec e1 e2 e3).result = .ok r) :
    (r.success = true → r.error = none ∧
      ((r.provider_used = "openai" ∧ r.model_used = OPENAI_MODEL) ∨
       (r.provider_used = "gemini" ∧ r.model_used = GEMINI_MODEL))) ∧
    (r.success = false → r.content = "" ∧ r.provider_used = "none" ∧ r.error ≠ none) ∧
    (r.is_fallback = true ↔
      (generate_content_with_fallback prim sec e1 e2 e3).secondary_calls = 1) := by
  match prim with
  | .ok (c, itok, otok) =>
    simp [generate_content_with_fallback] at h ⊢
    subst h
    simp
  | .error eP =>
    by_cases hd : fallsBack eP
    · match sec with
      | .ok (c, itok, otok) =>
        simp [generate_content_with_fallback, hd] at h ⊢
        subst h
        simp
      | .error eS =>
        simp [generate_content_with_fallback, hd] at h ⊢
        subst h
        simp
    · simp [generate_content_with_fallback, hd] at h

theorem c10_result_invariant_witness :
    let r : GenerationResult :=
      { success := true
        content := "hello"
        provider_used := "openai"
        model_used := OPENAI_MODEL
        generation_time_ms := 1
        input_tokens := some 3
        output_tokens := some 4
        is_fallback := false
        error := none }
    (r.success = true → r.error = none ∧
      ((r.provider_used = "openai" ∧ r.model_used = OPENAI_MODEL) ∨
       (r.provider_used = "gemini" ∧ r.model_used = GEMINI_MODEL))) ∧
    (r.success = false → r.content = "" ∧ r.provider_used = "none" ∧ r.error ≠ none) ∧
    (r.is_fallback = true ↔
      (generate_content_with_fallback (.ok ("hello", 3, 4)) (.ok ("g", 0, 0)) 1 2 3).secondary_calls = 1) :=
  c10_result_invariant (.ok ("hello", 3, 4)) (.ok ("g", 0, 0)) 1 2 3 _ rfl

theorem dropWhile_eq_self_of_head (p : Char → Bool) (l : List Char)
    (h : ∀ c, l.head? = some c → p c = false) : l.dropWhile p = l := by
  cases l with
  | nil => rfl
  | cons a t =>
    rw [List.dropWhile_cons, h a rfl]
    simp

theorem stripList_eq_self (cs : List Char)
    (h1 : ∀ c, cs.head? = some c → pyIsSpace c = false)
    (h2 : ∀ c, cs.getLast? = some c → pyIsSpace c = false) :
    stripList cs = cs := by
  unfold stripList
  rw [dropWhile_eq_self_of_head _ _ h1]
  rw [dropWhile_eq_self_of_head _ _ (fun c hc => h2 c (by rwa [List.head?_reverse] at hc))]
  exact List.reverse_reverse cs

theorem clean_json_list_plain (js : List Char)
    (h1 : js.head? = some '{') (h2 : js.getLast? = some '}') :
    clean_json_list js = js := by
  have hstrip : stripList js = js := stripList_eq_self js
    (fun c hc => by rw [h1] at hc; cases hc; decide)
    (fun c hc => by rw [h2] at hc; cases hc; decide)
  obtain ⟨t, rfl⟩ : ∃ t, js = '{' :: t := by
    cases js with
    | nil => cases h1
    | cons a t =>
      refine ⟨t, ?_⟩
      have h := Option.some.inj h1
      rw [h]
  have hb : (btick == '{') = false := by decide
  simp only [clean_json_list, hstrip]
  rw [if_neg (by simp [fenceChars, List.isPrefixOf, hb])]

theorem clean_json_list_fenced (js : List Char)
    (h1 : js.head? = some '{') (h2 : js.getLast? = some '}') :
    clean_json_list ([btick, btick, btick, 'j', 's', 'o', 'n', '\n'] ++ js
      ++ ['\n', btick, btick, btick]) = js := by
  have hnb : pyIsSpace btick = false := by decide
  -- the full input list, in two definitionally equal shapes
  set L : List Char := [btick, btick, btick, 'j', 's', 'o', 'n', '\n'] ++ js
      ++ ['\n', btick, btick, btick] with hLdef
  have hLlast : L.getLast? = some btick := by
    have h : L = ([btick, btick, btick, 'j', 's', 'o', 'n', '\n'] ++ js
        ++ ['\n', btick, btick]) ++ [btick] := by simp [hLdef, List.append_assoc]
    rw [h, List.getLast?_concat]
  have hstrip : stripList L = L := stripList_eq_self L
    (fun c hc => by
      have : L.head? = some btick := rfl
      rw [this] at hc; cases hc; decide)
    (fun c hc => by rw [hLlast] at hc; cases hc; decide)
  have hpre : fenceChars.isPrefixOf L = true :=
    isPrefixOf_append_self fenceChars
      (['j', 's', 'o', 'n', '\n'] ++ (js ++ ['\n', btick, btick, btick]))
  have hmem : '\n' ∈ L := by simp [hLdef]
  have hcont : L.contains '\n' = true := by
    simpa using hmem
  have hdrop : L.dropWhile (fun c => !(c = '\n')) = '\n' :: (js ++ ['\n', btick, btick, btick]) := by
    have h7 : ∀ a ∈ ([btick, btick, btick, 'j', 's', 'o', 'n'] : List Char),
        (fun c => !(c = '\n')) a = true := by decide
    have h := @List.dropWhile_append_of_pos Char (fun c => !(c = '\n'))
      [btick, btick, btick, 'j', 's', 'o', 'n'] ('\n' :: (js ++ ['\n', btick, btick, btick])) h7
    have hsh : L = [btick, btick, btick, 'j', 's', 'o', 'n']
        ++ ('\n' :: (js ++ ['\n', btick, btick, btick])) := by
      simp [hLdef, List.append_assoc]
    rw [hsh, h, List.dropWhile_cons]
    simp
  have hrev : (js ++ ['\n', btick, btick, btick]).reverse
      = [btick, btick, btick] ++ ('\n' :: js.reverse) := by
    rw [List.reverse_append]
    rfl
  have hpost : fenceChars.reverse.isPrefixOf (js ++ ['\n', btick, btick, btick]).reverse = true := by
    rw [hrev]
    have : fenceChars.reverse = fenceChars := rfl
    rw [this]
    exact isPrefixOf_append_self fenceChars ('\n' :: js.reverse)
  have hlen : (js ++ ['\n', btick, btick, btick]).length - 3 = js.length + 1 := by
    simp
  have htake : (js ++ ['\n', btick, btick, btick]).take (js.length + 1) = js ++ ['\n'] := by
    have hsh : js ++ ['\n', btick, btick, btick] = (js ++ ['\n']) ++ [btick, btick, btick] := by
      simp [List.append_assoc]
    rw [hsh]
    exact List.take_left' (by simp)
  have hstrip2 : stripList (js ++ ['\n']) = js := by
    obtain ⟨t, rfl⟩ : ∃ t, js = '{' :: t := by
      cases js with
      | nil => cases h1
      | cons a t =>
        refine ⟨t, ?_⟩
        have h := Option.some.inj h1
        rw [h]
    unfold stripList
    rw [List.cons_append, List.dropWhile_cons]
    have : pyIsSpace '{' = false := by decide
    rw [this]
    simp only [Bool.false_eq_true, if_false]
    have hrev2 : (('{' :: t) ++ ['\n']).reverse = '\n' :: ('{' :: t).reverse := by
      rw [List.reverse_append]
      rfl
    rw [show ('{' :: (t ++ ['\n'])) = ('{' :: t) ++ ['\n'] from rfl, hrev2,
      List.dropWhile_cons]
    have : pyIsSpace '\n' = true := by decide
    rw [this]
    simp only [if_true]
    rw [dropWhile_eq_self_of_head _ _ (fun c hc => by
      rw [List.head?_reverse, h2] at hc; cases hc; decide)]
    exact List.reverse_reverse _
  -- now compute
  simp only [clean_json_list]
  rw [hstrip, if_pos hpre, hcont]
  simp only [if_true]
  rw [hdrop]
  simp only [List.drop_succ_cons, List.drop_zero]
  rw [if_pos hpost, hlen, htake, hstrip2]

/-- C9: round-trip of the response-cleaning step: for every JSON object
text `j` (a string beginning with a brace and ending with a brace, hence
with no surrounding whitespace), `clean_json_response` recovers exactly `j`
both from the markdown-fenced form and from the plain form. -/
theorem c9_clean_json_roundtrip (j : String)
    (h1 : j.toList.head? = some '{') (h2 : j.toList.getLast? = some '}') :
    clean_json_response ("```json\n" ++ j ++ "\n```") = j ∧
    clean_json_response j = j := by
  have e1 : ("```json\n" : String).toList = [btick, btick, btick, 'j', 's', 'o', 'n', '\n'] := by
    decide
  have e2 : ("\n```" : String).toList = ['\n', btick, btick, btick] := by decide
  constructor
  · show String.mk (clean_json_list ("```json\n" ++ j ++ "\n```").toList) = j
    have hL : ("```json\n" ++ j ++ "\n```").toList
        = [btick, btick, btick, 'j', 's', 'o', 'n', '\n'] ++ j.toList
          ++ ['\n', btick, btick, btick] := by
      show ("```json\n".toList ++ j.toList) ++ "\n```".toList = _
      rw [e1, e2]
    rw [hL, clean_json_list_fenced j.toList h1 h2]
    rfl
  · show String.mk (clean_json_list j.toList) = j
    rw [clean_json_list_plain j.toList h1 h2]
    rfl

theorem c9_clean_json_roundtrip_witness :
    clean_json_response ("```json\n" ++ "\x7bprice: 100\x7d" ++ "\n```") = "\x7bprice: 100\x7d" ∧
    clean_json_response "\x7bprice: 100\x7d" = "\x7bprice: 100\x7d" :=
  c9_clean_json_roundtrip "\x7bprice: 100\x7d" (by decide) (by decide)

theorem char_toNat_ofNat_small (n : Nat) (h1 : 97 ≤ n) (h2 : n ≤ 122) :
    (Char.ofNat n).toNat = n := by
  have hv : n.isValidChar := Or.inl (by omega)
  rw [Char.ofNat, dif_pos hv]
  simp [Char.ofNatAux, Char.toNat, UInt32.toNat, UInt32.ofNat', BitVec.toNat_ofNatLt]

theorem pyLowerChar_idem (c : Char) : pyLowerChar (pyLowerChar c) = pyLowerChar c := by
  by_cases h : 65 ≤ c.toNat ∧ c.toNat ≤ 90
  · have h1 : pyLowerChar c = Char.ofNat (c.toNat + 32) := by simp [pyLowerChar, h]
    have h2 : (Char.ofNat (c.toNat + 32)).toNat = c.toNat + 32 :=
      char_toNat_ofNat_small _ (by omega) (by omega)
    rw [h1]
    unfold pyLowerChar
    rw [if_neg (by omega)]
  · unfold pyLowerChar
    rw [if_neg h, if_neg h]

theorem map_pyLowerChar_idem (l : List Char) :
    (l.map pyLowerChar).map pyLowerChar = l.map pyLowerChar := by
  induction l with
  | nil => rfl
  | cons a t ih => simp [pyLowerChar_idem, ih]

theorem pyLower_idem (s : String) : pyLower (pyLower s) = pyLower s := by
  show String.mk ((s.toList.map pyLowerChar).map pyLowerChar) = String.mk (s.toList.map pyLowerChar)
  rw [map_pyLowerChar_idem]

theorem eq_empty_of_toList_nil (s : String) (h : s.toList = []) : s = "" := by
  calc s = String.mk s.toList := rfl
    _ = String.mk [] := by rw [h]
    _ = "" := rfl

theorem pyLower_isEmpty (s : String) : (pyLower s).isEmpty = s.isEmpty := by
  by_cases h : s = ""
  · subst h; rfl
  · have h1 : s.isEmpty = false := by
      cases hh : s.isEmpty with
      | false => rfl
      | true => exact absurd ((String.isEmpty_iff _).mp hh) h
    have h2 : (pyLower s).isEmpty = false := by
      cases hh : (pyLower s).isEmpty with
      | false => rfl
      | true =>
        exfalso
        have he : pyLower s = "" := (String.isEmpty_iff _).mp hh
        have hdata : s.toList.map pyLowerChar = [] := congrArg String.data he
        have hnil : s.toList = [] := by
          cases hl : s.toList with
          | nil => rfl
          | cons a t => rw [hl] at hdata; cases hdata
        exact h (eq_empty_of_toList_nil s hnil)
    rw [h1, h2]

theorem check_lower_eq (t : String) :
    check_fair_housing_compliance (some t)
      = check_fair_housing_compliance (some (pyLower t)) := by
  simp only [check_fair_housing_compliance]
  rw [pyLower_isEmpty]
  by_cases h : t.isEmpty
  · simp [h]
  · simp [h, pyLower_idem]

theorem mem_findallAux_chars (cs : List Char) (body : RE) (fuel : Nat) :
    ∀ (i : Nat) (s : String), s ∈ findallAux cs body fuel i →
      ∀ c ∈ s.toList, c ∈ cs := by
  induction fuel with
  | zero => intro i s hs; cases hs
  | succ fuel ih =>
    intro i s hs c hc
    unfold findallAux at hs
    by_cases hi : i ≤ cs.length
    · rw [if_pos hi] at hs
      cases hm : matchAt cs body i with
      | none => rw [hm] at hs; exact ih _ _ hs c hc
      | some j =>
        rw [hm] at hs
        cases hs with
        | head =>
          have hmem : c ∈ (cs.drop i).take (j - i) := hc
          exact List.drop_subset i cs (List.take_subset _ _ hmem)
        | tail _ h => exact ih _ _ h c hc
    · rw [if_neg hi] at hs; cases hs

theorem mem_re_findall_chars (body : RE) (text : String) (s : String)
    (hs : s ∈ re_findall body text) : ∀ c ∈ s.toList, c ∈ text.toList :=
  mem_findallAux_chars text.toList body _ 0 s hs

theorem mem_foldl_append {α β : Type} (f : β → List α) (l : List β) :
    ∀ (acc : List α) (x : α), x ∈ l.foldl (fun a p => a ++ f p) acc →
      x ∈ acc ∨ ∃ p, p ∈ l ∧ x ∈ f p := by
  induction l with
  | nil => intro acc x h; exact Or.inl h
  | cons b bs ih =>
    intro acc x h
    rcases ih _ x h with h1 | h1
    · rcases List.mem_append.mp h1 with h3 | h4
      · exact Or.inl h3
      · exact Or.inr ⟨b, List.mem_cons_self _ _, h4⟩
    · rcases h1 with ⟨p, hp, hx⟩
      exact Or.inr ⟨p, List.mem_cons_of_mem _ hp, hx⟩

theorem dedupFirst_aux (l : List String) :
    ∀ (acc : List String) (x : String), x ∈ l.foldl
      (fun acc x => if acc.contains x then acc else acc ++ [x]) acc →
      x ∈ acc ∨ x ∈ l := by
  induction l with
  | nil => intro acc x hh; exact Or.inl hh
  | cons b bs ih =>
    intro acc x hh
    rcases ih _ x hh with h1 | h1
    · simp only [] at h1
      by_cases hb : acc.contains b
      · rw [if_pos hb] at h1
        exact Or.inl h1
      · rw [if_neg hb] at h1
        rcases List.mem_append.mp h1 with h3 | h4
        · exact Or.inl h3
        · cases h4 with
          | head => exact Or.inr (List.mem_cons_self _ _)
          | tail _ hx => cases hx
    · exact Or.inr (List.mem_cons_of_mem _ h1)

theorem dedupFirst_subset (l : List String) (x : String) (h : x ∈ dedupFirst l) :
    x ∈ l := by
  rcases dedupFirst_aux l [] x h with h1 | h1
  · cases h1
  · exact h1

theorem mem_categoryMatches (cfg : CategoryConfig) (lower : String) (m : String)
    (hm : m ∈ categoryMatches cfg lower) :
    ∃ p, p ∈ cfg.patterns ∧ m ∈ re_findall p lower := by
  rcases mem_foldl_append (fun p => re_findall p lower) cfg.patterns [] m hm with h | h
  · cases h
  · exact h

theorem map_eq_self_of_fix (l : List Char) (h : ∀ c ∈ l, pyLowerChar c = c) :
    l.map pyLowerChar = l := by
  induction l with
  | nil => rfl
  | cons a t ih =>
    rw [List.map_cons, h a (List.mem_cons_self _ _),
      ih (fun c hc => h c (List.mem_cons_of_mem _ hc))]

theorem pyLower_fixed_of_chars (m : String)
    (h : ∀ c ∈ m.toList, pyLowerChar c = c) : pyLower m = m := by
  show String.mk (m.toList.map pyLowerChar) = m
  rw [map_eq_self_of_fix m.toList h]
  rfl

theorem mem_pyLower_chars_fixed (t : String) (c : Char)
    (hc : c ∈ (pyLower t).toList) : pyLowerChar c = c := by
  have : c ∈ t.toList.map pyLowerChar := hc
  rcases List.mem_map.mp this with ⟨a, _, rfl⟩
  exact pyLowerChar_idem a

theorem check_matches_lowercase (t : String) (v : ComplianceViolation)
    (hv : v ∈ (check_fair_housing_compliance (some t)).violations)
    (m : String) (hm : m ∈ v.«matches») : pyLower m = m := by
  by_cases ht : t.isEmpty
  · simp [check_fair_housing_compliance, ht] at hv
  · simp only [check_fair_housing_compliance, if_neg ht] at hv
    have hv2 : v ∈ collectViolations (pyLower t) := hv
    unfold collectViolations at hv2
    rcases List.mem_filterMap.mp hv2 with ⟨pc, _, hf⟩
    by_cases hms : (categoryMatches pc.2 (pyLower t)).isEmpty
    · rw [if_pos hms] at hf; cases hf
    · rw [if_neg hms] at hf
      injection hf with hf
      subst hf
      have hm2 : m ∈ categoryMatches pc.2 (pyLower t) :=
        dedupFirst_subset _ _ hm
      rcases mem_categoryMatches _ _ _ hm2 with ⟨p, _, hfind⟩
      apply pyLower_fixed_of_chars
      intro c hc
      exact mem_pyLower_chars_fixed t c (mem_re_findall_chars p (pyLower t) m hfind c hc)

/-- C7: compliance matching is case-insensitive: for every input text the
checker returns the identical result on the text and on its lowered form
(hence the same violated categories and matched phrases), every recorded
matched phrase is case-folded to lower case, and in particular the checker
returns the same result on "WELCOME TO THIS ADULTS ONLY community" and on
"adults only community". -/
theorem c7_case_insensitive (t : String) :
    check_fair_housing_compliance (some t)
      = check_fair_housing_compliance (some (pyLower t)) ∧
    (∀ v ∈ (check_fair_housing_compliance (some t)).violations,
       ∀ m ∈ v.«matches», pyLower m = m) ∧
    check_fair_housing_compliance (some "WELCOME TO THIS ADULTS ONLY community")
      = check_fair_housing_compliance (some "adults only community") := by
  refine ⟨check_lower_eq t, ?_, ?_⟩
  · intro v hv m hm
    exact check_matches_lowercase t v hv m hm
  · decide

theorem c7_case_insensitive_witness :
    check_fair_housing_compliance (some "No Children Allowed")
      = check_fair_housing_compliance (some (pyLower "No Children Allowed")) :=
  (c7_case_insensitive "No Children Allowed").1

/-- C6: the compliance checker is a total function of its input — the
embedding assigns it the non-exceptional type
`Option String → ComplianceResult`, faithful to a body that performs no
raising operation, so a result exists for every input, including non-ASCII
strings — and on empty or `None` input it returns the compliant early-exit
result with zero violations. -/
theorem c6_total_and_empty_compliant (text : Option String) :
    (∃ r : ComplianceResult, check_fair_housing_compliance text = r) ∧
    ((text = none ∨ text = some "") →
      check_fair_housing_compliance text =
        { is_compliant := true, violations := [], message := "No content to check" }) := by
  refine ⟨⟨_, rfl⟩, ?_⟩
  rintro (rfl | rfl) <;> rfl

theorem c6_total_and_empty_compliant_witness :
    check_fair_housing_compliance (some "") =
      { is_compliant := true, violations := [], message := "No content to check" } :=
  (c6_total_and_empty_compliant (some "")).2 (Or.inr rfl)

/-- C8: for every refinement request whose edit instruction itself fails
the compliance check (and whose content type is valid, so the request
reaches the gate), the endpoint returns the terminal failure response with
`error_type = "instruction_violation"`, the instruction's violation list,
and the fixed user-facing rephrasing message — and the AI provider call
count is zero. -/
theorem c8_instruction_violation_no_provider_call
    (req : RefineContentRequest) (anthropicKey : Bool)
    (providerRaw : Except PyError String) (t1 t2 t3 t4 : Nat)
    (hvalid : valid_types.contains req.content_type = true)
    (hbad : (check_fair_housing_compliance (some req.user_instruction)).is_compliant = false) :
    refine_content req anthropicKey providerRaw t1 t2 t3 t4 =
      { outcome := .response
          { success := false
            error := some "compliance_violation"
            error_type := some "instruction_violation"
            violations := some
              ((check_fair_housing_compliance (some req.user_instruction)).violations.map
                toViolationResponse)
            message := some "Your refinement request contains language that may violate Fair Housing laws. Please rephrase without references to protected classes."
            processing_time_ms := t1 }
        provider_calls := 0 } := by
  unfold refine_content
  rw [hvalid]
  simp only [Bool.not_true, Bool.false_eq_true, if_false, hbad, Bool.not_false, if_true]

theorem c8_instruction_violation_no_provider_call_witness :
    refine_content
      { content_type := "remarks"
        current_content := "A fine home on a quiet street."
        user_instruction := "say no children allowed" }
      true (.ok "unused") 9 0 0 0 =
      { outcome := .response
          { success := false
            error := some "compliance_violation"
            error_type := some "instruction_violation"
            violations := some
              ((check_fair_housing_compliance (some "say no children allowed")).violations.map
                toViolationResponse)
            message := some "Your refinement request contains language that may violate Fair Housing laws. Please rephrase without references to protected classes."
            processing_time_ms := 9 }
        provider_calls := 0 } :=
  c8_instruction_violation_no_provider_call _ _ _ _ _ _ _ (by decide) (by decide)
